import Mathlib

/-!
Verification of the fusionrate cross-section engine against its
natural-language specification.

The development shallowly embeds the Python sources:

* `src/fusrate/endf.py` — the classes `LogLogExtrapolation`,
  `LogLogReinterpolation` and `ENDFCrossSection`;
* `src/fusionrate/ion_data.py` — the function `ion_mass`.

Machine floats are idealised as real numbers.  Array operations
(`numpy`) become `List ℝ` operations; `np.interp` is embedded as a
recursive piecewise-linear interpolation `npInterp` with the same
boundary conventions (left default `fp[0]`, right value either the
explicit `right=` argument or the default `fp[-1]`).  The external
collaborators that are not part of the repository sources
(`fusrate.reactionnames`, `fusrate.load_data`, and `scipy`'s
`InterpolatedUnivariateSpline` fitting routine) are abstracted into an
`Externals` record of injected functions, exactly as the spec treats
them ("external collaborators, specified only at their interface").
-/

namespace Fusionrate

/-! ### Constants of `endf.py` -/

/-- `LogLogExtrapolation.SMALL = 1e-50` (endf.py line 15),
"to prevent errors with log of 0". -/
noncomputable def LLE_SMALL : ℝ := 1e-50

/-- `LogLogReinterpolation.SMALL = 1e-50` (endf.py line 68). -/
noncomputable def LLR_SMALL : ℝ := 1e-50

/-- `LogLogReinterpolation.LOWBOUND = 0.010` keV (endf.py line 69). -/
noncomputable def LLR_LOWBOUND : ℝ := 0.010

/-- `LogLogReinterpolation.HIGHBOUND = 4e4` keV (endf.py line 70). -/
noncomputable def LLR_HIGHBOUND : ℝ := 4e4

/-- `LogLogReinterpolation.NUM_REMESH = 6000` (endf.py line 71). -/
def LLR_NUM_REMESH : ℕ := 6000

/-! ### Elementary list helpers mirroring Python built-ins -/

/-- Python `min(x)` over a nonempty sequence (junk value 0 on `[]`,
where Python raises). -/
noncomputable def listMin : List ℝ → ℝ
  | [] => 0
  | a :: t => t.foldl min a

/-- Python `max(x)` over a nonempty sequence (junk value 0 on `[]`,
where Python raises). -/
noncomputable def listMax : List ℝ → ℝ
  | [] => 0
  | a :: t => t.foldl max a

/-- `np.linspace(a, b, n)`: `n` evenly spaced samples from `a` to `b`,
endpoint included.  For `n = 1` the step term is `0/0 = 0` in Lean, so
the single sample is `a`, matching numpy. -/
noncomputable def linspace (a b : ℝ) (n : ℕ) : List ℝ :=
  (List.range n).map (fun i : ℕ => a + (b - a) * (i : ℝ) / ((n : ℝ) - 1))

/-! ### Embedding of `np.interp`

`np.interp(x, xp, fp, right=r)` with `xp` sorted increasing:
piecewise-linear interpolation, clamping to `fp[0]` left of the grid
and returning `r` (default `fp[-1]`) strictly right of the grid. -/

/-- Inner scan of `npInterp`: `(xl, yl)` is the current left grid
point, the two lists are the remaining grid.  Past the last point the
`right` value `rval` is returned. -/
noncomputable def interpGo (x rval : ℝ) : ℝ → ℝ → List ℝ → List ℝ → ℝ
  | xl, yl, xr :: xs, yr :: ys =>
      if x ≤ xr then yl + (yr - yl) * (x - xl) / (xr - xl)
      else interpGo x rval xr yr xs ys
  | xl, yl, _, _ => if xl < x then rval else yl

/-- `np.interp(x, xp, fp, right=rval)` (junk value 0 on an empty grid,
where numpy raises). -/
noncomputable def npInterp (xp fp : List ℝ) (rval x : ℝ) : ℝ :=
  match xp, fp with
  | xl :: xs, yl :: ys => if x < xl then yl else interpGo x rval xl yl xs ys
  | _, _ => 0

/-- `np.interp(x, xp, fp)` with no `right=` argument: the right clamp
defaults to the last table value `fp[-1]`. -/
noncomputable def npInterpDefault (xp fp : List ℝ) (x : ℝ) : ℝ :=
  npInterp xp fp (fp.getLastD 0) x

/-! ### `LogLogExtrapolation` (endf.py lines 10–58) -/

/-- Transform applied to each tabulated energy at construction,
endf.py line 26: `logx = np.log(x + self.SMALL)`. -/
noncomputable def lle_logx_transform (xi : ℝ) : ℝ := Real.log (xi + LLE_SMALL)

/-- Transform applied to each tabulated cross-section value at
construction, endf.py line 27: `logy = np.log(y)` — note: no epsilon
is added here. -/
noncomputable def lle_logy_transform (yi : ℝ) : ℝ := Real.log yi

/-- The linear extension of endf.py lines 31–36, factored out of
`__init__`: `last_two = data[-2:]`, `last = last_two[-1]`,
`delta = last_two[-1] - last_two[-2]`, and the appended points are
`last + np.outer([1, 2, 3], delta)`.  `last_two[-2]` is the head of
the two-element slice; on input of length < 2 Python raises an
`IndexError` where this embedding uses junk default points. -/
noncomputable def subsequent_points (data : List (ℝ × ℝ)) : List (ℝ × ℝ) :=
  let last_two := data.drop (data.length - 2)
  let last := last_two.getLastD (0, 0)
  let prev := last_two.headD (0, 0)
  let d : ℝ × ℝ := (last.1 - prev.1, last.2 - prev.2)
  ([1, 2, 3] : List ℝ).map (fun k => (last.1 + k * d.1, last.2 + k * d.2))

/-- The state of a `LogLogExtrapolation` instance: exactly the
attributes assigned in `__init__`.  `interpolator` stands for the
fitted `InterpolatedUnivariateSpline` object, an opaque callable. -/
structure LogLogExtrapolation where
  x : List ℝ
  y : List ℝ
  max_x : ℝ
  min_x : ℝ
  data : List (ℝ × ℝ)
  logx : List ℝ
  logy : List ℝ
  interpolator : ℝ → ℝ

/-- `LogLogExtrapolation.__init__` (endf.py lines 17–44).  The scipy
spline-fitting routine is injected as `fit` (taking the x-array and
y-array, like `InterpolatedUnivariateSpline(logx, logy, k=2, ext=0)`).
The tables have length ≥ 2 per the spec's data model
(`RawCrossSectionTable`); on shorter input Python raises an
`IndexError` where this embedding returns junk default points. -/
noncomputable def LogLogExtrapolation.init (fit : List ℝ → List ℝ → ℝ → ℝ)
    (x y : List ℝ) (linear_extension : Bool) : LogLogExtrapolation :=
  let logx0 := x.map lle_logx_transform
  let logy0 := y.map lle_logy_transform
  let data0 := logx0.zip logy0
  let data1 :=
    if linear_extension then data0 ++ subsequent_points data0
    else data0
  { x := x
    y := y
    max_x := listMax x
    min_x := listMin x
    data := data1
    logx := data1.map Prod.fst
    logy := data1.map Prod.snd
    interpolator := fit (data1.map Prod.fst) (data1.map Prod.snd) }

/-- `LogLogExtrapolation.__call__` (endf.py lines 46–58):
`exp(interpolator(log(newx + SMALL)))`. -/
noncomputable def LogLogExtrapolation.call (t : LogLogExtrapolation)
    (newx : ℝ) : ℝ :=
  Real.exp (t.interpolator (Real.log (newx + LLE_SMALL)))

/-! ### `LogLogReinterpolation` (endf.py lines 61–117) -/

/-- The state of a `LogLogReinterpolation` instance: exactly the
attributes assigned in `__init__`.  In particular the wrapped
`LogLogExtrapolation` (local variable `lle`) is *not* stored: only the
two grid arrays and the point count survive construction. -/
structure LogLogReinterpolation where
  NUM_REMESH : ℕ
  remeshed_logx : List ℝ
  remeshed_logy : List ℝ

/-- `LogLogReinterpolation._remeshed_log_x` (endf.py lines 85–88):
`np.linspace(log(LOWBOUND), log(HIGHBOUND), NUM_REMESH)`. -/
noncomputable def remeshed_log_x (num : ℕ) : List ℝ :=
  linspace (Real.log LLR_LOWBOUND) (Real.log LLR_HIGHBOUND) num

/-- `LogLogReinterpolation.__init__` (endf.py lines 73–83): the
instance point count is the class default 6000 unless `num_remesh` is
supplied; a fresh `LogLogExtrapolation` is built and its spline is
sampled once at every grid point. -/
noncomputable def LogLogReinterpolation.init (fit : List ℝ → List ℝ → ℝ → ℝ)
    (x y : List ℝ) (linear_extension : Bool) (num_remesh : Option ℕ) :
    LogLogReinterpolation :=
  let num := num_remesh.getD LLR_NUM_REMESH
  let gridx := remeshed_log_x num
  let lle := LogLogExtrapolation.init fit x y linear_extension
  { NUM_REMESH := num
    remeshed_logx := gridx
    remeshed_logy := gridx.map lle.interpolator }

/-- `LogLogReinterpolation.__call__` (endf.py lines 90–104):
`exp(np.interp(log(newx), remeshed_logx, remeshed_logy,
right=np.log10(SMALL)))`.  No epsilon is added to `newx` before the
logarithm, and the right clamp is a *base-10* logarithm of the
natural-log-space constant `SMALL`. -/
noncomputable def LogLogReinterpolation.call (o : LogLogReinterpolation)
    (newx : ℝ) : ℝ :=
  Real.exp (npInterp o.remeshed_logx o.remeshed_logy
    (Real.logb 10 LLR_SMALL) (Real.log newx))

/-- The detached evaluator returned by
`LogLogReinterpolation.make_jitfunction` (endf.py lines 106–117):
`exp(np.interp(log(newx + small), remesh_logx, remesh_logy))` — here
the epsilon *is* added, and `np.interp` is called without `right=`, so
right of the grid it clamps to the last table value. -/
noncomputable def LogLogReinterpolation.make_jitfunction
    (o : LogLogReinterpolation) : ℝ → ℝ :=
  fun newx =>
    Real.exp (npInterpDefault o.remeshed_logx o.remeshed_logy
      (Real.log (newx + LLR_SMALL)))

/-! ### `ion_mass` (src/fusionrate/ion_data.py)

The backing store `ions.json` is a JSON object mapping each species
symbol to a record with at least a `mass` field; it is data, not code,
so it is a parameter here. -/

/-- One value of the `ions.json` mapping: a record carrying at least a
`mass` field (in amu). -/
structure IonRecord where
  mass : ℚ
  deriving DecidableEq

/-- `ion_mass(s) = ion_data[s]["mass"]` (ion_data.py lines 14–25): a
plain key lookup in the loaded mapping; a missing symbol is a failure
(Python `KeyError`, the spec's `UnknownSpecies`), modelled as `none`. -/
def ion_mass (ion_data : List (String × IonRecord)) (s : String) : Option ℚ :=
  (ion_data.lookup s).map IonRecord.mass

/-! ### `ENDFCrossSection` (endf.py lines 120–184) -/

/-- The external collaborators of the engine, injected per the spec's
interface section: the reaction-name subsystem
(`fusrate.reactionnames.name_resolver` / `.reactants`), the data store
(`fusrate.ion_data.ion_mass`, `fusrate.load_data.cross_section_data`),
and scipy's spline-fitting routine.  Failures of the lookups are
modelled as `none`. -/
structure Externals where
  name_resolver : String → Option String
  reactants : String → Option (String × String)
  ion_mass : String → Option ℝ
  cross_section_data : String → Option (List ℝ × List ℝ)
  fitSpline : List ℝ → List ℝ → ℝ → ℝ

/-- The state of an `ENDFCrossSection` instance: exactly the
attributes `__init__` assigns — `canonical_reaction_name`,
`bt_to_com`, `x` (the converted energy array) and `interp`. -/
structure ENDFCrossSection where
  canonical_reaction_name : String
  bt_to_com : ℝ
  x : List ℝ
  interp : ℝ → ℝ

/-- The constructor argument `r`: either a reaction-name string or an
existing engine instance. -/
inductive ReactionArg where
  | name (s : String)
  | engine (E : ENDFCrossSection)

/-- Python attribute lookup `r.name` on an `ENDFCrossSection` instance
(endf.py line 135).  The class only ever assigns the attributes
`canonical_reaction_name`, `bt_to_com`, `x` and `interp` (plus the
method names): no code path assigns `self.name`, so this lookup always
fails with `AttributeError`. -/
def ENDFCrossSection.attr_name (_E : ENDFCrossSection) : Option String := none

/-- The `ValueError` message of endf.py lines 156–160.  The three
adjacent Python string literals concatenate without separators, so
`"...{interpolation}."` runs into `"Allowed values are..."` and
`"...LogLogExtrapolation and"` runs into `"LogLogReinterpolation."`. -/
def interpModeError (interpolation : String) : String :=
  "Unknown interpolation type " ++ interpolation ++ "." ++
    "Allowed values are LogLogExtrapolation and" ++ "LogLogReinterpolation."

/-- First phase of `ENDFCrossSection.__init__` (endf.py lines
125–136): determine the canonical name and the beam-target→COM factor,
either by resolving a reaction-name string (fetching both reactant
masses to form `m_tar / (m_beam + m_tar)`) or by reading them off an
existing engine instance.  The engine path reads `r.name`, which no
instance possesses (see `ENDFCrossSection.attr_name`). -/
noncomputable def resolveReactionArg (ext : Externals) :
    ReactionArg → Except String (String × ℝ)
  | .name s =>
    match ext.name_resolver s with
    | none => .error "UnresolvedReactionName"
    | some name =>
      match ext.reactants name with
      | none => .error "ReactantsLookupFailed"
      | some (beam, target) =>
        match ext.ion_mass beam, ext.ion_mass target with
        | some m_beam, some m_tar => .ok (name, m_tar / (m_beam + m_tar))
        | _, _ => .error "UnknownSpecies"
  | .engine E =>
    match E.attr_name with
    | none => .error "AttributeError"
    | some name => .ok (name, E.bt_to_com)

/-- Second phase of `ENDFCrossSection.__init__` (endf.py lines
138–160): fetch the raw table for the canonical name, convert energies
(`x = x_raw * bt_to_com / 1e3`) and cross sections (`y = y_raw * 1e3`),
then build the interpolant selected by the mode string. -/
noncomputable def buildEngine (ext : Externals) (name : String) (bt : ℝ)
    (interpolation : String) : Except String ENDFCrossSection :=
  match ext.cross_section_data name with
  | none => .error "UnknownReactionData"
  | some (x_raw, y_raw) =>
    let x := x_raw.map (fun v => v * bt / 1e3)
    let y := y_raw.map (fun v => v * 1e3)
    if interpolation = "LogLogExtrapolation" then
      .ok { canonical_reaction_name := name, bt_to_com := bt, x := x,
            interp := (LogLogExtrapolation.init ext.fitSpline x y true).call }
    else if interpolation = "LogLogReinterpolation" then
      .ok { canonical_reaction_name := name, bt_to_com := bt, x := x,
            interp := (LogLogReinterpolation.init ext.fitSpline x y true
                none).make_jitfunction }
    else
      .error (interpModeError interpolation)

/-- `ENDFCrossSection.__init__` (endf.py lines 121–160). -/
noncomputable def ENDFCrossSection.init (ext : Externals) (r : ReactionArg)
    (interpolation : String) : Except String ENDFCrossSection :=
  match resolveReactionArg ext r with
  | .error e => .error e
  | .ok (name, bt) => buildEngine ext name bt interpolation

/-- `ENDFCrossSection.__init__`'s `interpolation` parameter defaults
to `"LogLogExtrapolation"` (endf.py line 121). -/
noncomputable def ENDFCrossSection.initDefault (ext : Externals)
    (r : ReactionArg) : Except String ENDFCrossSection :=
  ENDFCrossSection.init ext r "LogLogExtrapolation"

/-- `ENDFCrossSection.cross_section` (endf.py lines 165–176):
delegates to the selected interpolant. -/
noncomputable def ENDFCrossSection.cross_section (E : ENDFCrossSection)
    (e : ℝ) : ℝ :=
  E.interp e

/-- `ENDFCrossSection.prescribed_range` (endf.py lines 178–184):
`[min(self.x), max(self.x)]` over the converted tabulated energies. -/
noncomputable def ENDFCrossSection.prescribed_range (E : ENDFCrossSection) :
    List ℝ :=
  [listMin E.x, listMax E.x]

/-! ### Helper lemmas on lists and grids -/

/-- A list of length at least two splits off its last two elements. -/
lemma exists_concat_two {α : Type} :
    ∀ (l : List α), 2 ≤ l.length → ∃ (t : List α) (a b : α), l = t ++ [a, b]
  | [], h => by simp at h
  | [a], h => by simp at h
  | [a, b], _ => ⟨[], a, b, rfl⟩
  | a :: b :: c :: l, _ => by
    obtain ⟨t, p, q, ht⟩ :=
      exists_concat_two (b :: c :: l) (by simp)
    exact ⟨a :: t, p, q, by rw [List.cons_append, ← ht]⟩

/-- `data[-2:]` on a list ending in `[a, b]` is `[a, b]`. -/
lemma drop_length_sub_two {α : Type} (t : List α) (a b : α) :
    (t ++ [a, b]).drop ((t ++ [a, b]).length - 2) = [a, b] := by
  have h : (t ++ [a, b]).length - 2 = t.length := by simp
  rw [h, List.drop_left]

/-- `getLastD` of a list ending in `[a, b]` is `b`. -/
lemma getLastD_concat_two {α : Type} (t : List α) (a b d : α) :
    (t ++ [a, b]).getLastD d = b := by
  rw [show t ++ [a, b] = (t ++ [a]) ++ [b] by simp, List.getLastD_concat]

/-- `dropLast` of a list ending in `[a, b]` ends in `a`. -/
lemma dropLast_concat_two {α : Type} (t : List α) (a b : α) :
    (t ++ [a, b]).dropLast = t ++ [a] := by
  rw [show t ++ [a, b] = (t ++ [a]) ++ [b] by simp, List.dropLast_concat]

lemma linspace_length (a b : ℝ) (n : ℕ) : (linspace a b n).length = n := by
  simp [linspace]

lemma linspace_ne_nil (a b : ℝ) (n : ℕ) (h : 1 ≤ n) : linspace a b n ≠ [] := by
  intro hnil
  have hlen := linspace_length a b n
  rw [hnil] at hlen
  simp at hlen
  omega

/-- The last sample of `np.linspace(a, b, n)` is the endpoint `b`
(for at least two samples). -/
lemma linspace_getLastD (a b : ℝ) (n : ℕ) (h : 2 ≤ n) (d : ℝ) :
    (linspace a b n).getLastD d = b := by
  obtain ⟨m, rfl⟩ : ∃ m, n = m + 1 := ⟨n - 1, by omega⟩
  unfold linspace
  rw [List.range_succ, List.map_append]
  simp only [List.map_cons, List.map_nil]
  rw [List.getLastD_concat]
  have hm0 : ((m : ℝ)) ≠ 0 := Nat.cast_ne_zero.mpr (by omega)
  have hc : ((m + 1 : ℕ) : ℝ) - 1 = (m : ℝ) := by push_cast; ring
  rw [hc]
  field_simp

/-- The first sample of `np.linspace(a, b, n)` is the start point `a`. -/
lemma linspace_headD (a b : ℝ) (n : ℕ) (h : 1 ≤ n) (d : ℝ) :
    (linspace a b n).headD d = a := by
  obtain ⟨m, rfl⟩ : ∃ m, n = m + 1 := ⟨n - 1, by omega⟩
  unfold linspace
  rw [List.range_succ_eq_map]
  simp

/-- Every sample of `np.linspace(a, b, n)` is at most `b` when `a ≤ b`. -/
lemma linspace_mem_le (a b : ℝ) (n : ℕ) (hab : a ≤ b) (t : ℝ)
    (ht : t ∈ linspace a b n) : t ≤ b := by
  simp only [linspace, List.mem_map, List.mem_range] at ht
  obtain ⟨i, hin, rfl⟩ := ht
  rcases Nat.lt_or_ge n 2 with hn | hn
  · interval_cases n
    · exact absurd hin (by omega)
    · have hi : i = 0 := by omega
      subst hi
      norm_num [hab]
  · have hpos : (0 : ℝ) < (n : ℝ) - 1 := by
      have h2 : (2 : ℝ) ≤ (n : ℝ) := by exact_mod_cast hn
      linarith
    have hile : (i : ℝ) ≤ (n : ℝ) - 1 := by
      have hi1 : (i : ℝ) + 1 ≤ (n : ℝ) := by exact_mod_cast hin
      linarith
    have hdiv : (i : ℝ) / ((n : ℝ) - 1) ≤ 1 := (div_le_one hpos).mpr hile
    have hmul : (b - a) * ((i : ℝ) / ((n : ℝ) - 1)) ≤ (b - a) * 1 :=
      mul_le_mul_of_nonneg_left hdiv (by linarith)
    rw [mul_div_assoc]
    linarith

/-- Consecutive `np.linspace` samples differ by the fixed step
`(b - a) / (n - 1)`: the grid is uniformly spaced. -/
lemma linspace_spacing (a b : ℝ) (n i : ℕ) (hi : i + 1 < n) :
    (linspace a b n).getD (i + 1) 0 - (linspace a b n).getD i 0 =
      (b - a) / ((n : ℝ) - 1) := by
  have h1 : i + 1 < n := hi
  have h0 : i < n := by omega
  simp only [linspace, List.getD_eq_getElem?_getD, List.getElem?_map,
    List.getElem?_range h1, List.getElem?_range h0, Option.map_some',
    Option.getD_some]
  push_cast
  ring

/-- Python's `min` over a nonempty list: a member below every
member. -/
lemma foldl_min_le_init (l : List ℝ) : ∀ a, l.foldl min a ≤ a := by
  induction l with
  | nil => intro a; simp
  | cons b t ih =>
    intro a
    simp only [List.foldl_cons]
    exact le_trans (ih (min a b)) (min_le_left a b)

lemma foldl_min_le_mem (l : List ℝ) : ∀ a, ∀ t ∈ l, l.foldl min a ≤ t := by
  induction l with
  | nil => intro a t ht; simp at ht
  | cons b t ih =>
    intro a s hs
    simp only [List.foldl_cons]
    rcases List.mem_cons.mp hs with rfl | hs'
    · exact le_trans (foldl_min_le_init t (min a s)) (min_le_right a s)
    · exact ih (min a b) s hs'

lemma foldl_min_mem (l : List ℝ) : ∀ a, l.foldl min a = a ∨ l.foldl min a ∈ l := by
  induction l with
  | nil => intro a; left; rfl
  | cons b t ih =>
    intro a
    rcases ih (min a b) with h | h
    · rcases le_total a b with hab | hab
      · left; rw [List.foldl_cons, h, min_eq_left hab]
      · right
        rw [List.foldl_cons, h, min_eq_right hab]
        exact List.mem_cons_self b t
    · right; exact List.mem_cons_of_mem b h

/-- `listMin` of a nonempty list is its least member. -/
lemma listMin_spec (l : List ℝ) (h : l ≠ []) :
    listMin l ∈ l ∧ ∀ t ∈ l, listMin l ≤ t := by
  cases l with
  | nil => exact absurd rfl h
  | cons a t =>
    constructor
    · rcases foldl_min_mem t a with h' | h'
      · rw [show listMin (a :: t) = t.foldl min a from rfl, h']
        exact List.mem_cons_self a t
      · exact List.mem_cons_of_mem a h'
    · intro s hs
      rcases List.mem_cons.mp hs with rfl | hs'
      · exact foldl_min_le_init t s
      · exact foldl_min_le_mem t a s hs'

lemma foldl_max_init_le (l : List ℝ) : ∀ a, a ≤ l.foldl max a := by
  induction l with
  | nil => intro a; simp
  | cons b t ih =>
    intro a
    simp only [List.foldl_cons]
    exact le_trans (le_max_left a b) (ih (max a b))

lemma foldl_max_mem_le (l : List ℝ) : ∀ a, ∀ t ∈ l, t ≤ l.foldl max a := by
  induction l with
  | nil => intro a t ht; simp at ht
  | cons b t ih =>
    intro a s hs
    simp only [List.foldl_cons]
    rcases List.mem_cons.mp hs with rfl | hs'
    · exact le_trans (le_max_right a s) (foldl_max_init_le t (max a s))
    · exact ih (max a b) s hs'

lemma foldl_max_mem (l : List ℝ) : ∀ a, l.foldl max a = a ∨ l.foldl max a ∈ l := by
  induction l with
  | nil => intro a; left; rfl
  | cons b t ih =>
    intro a
    rcases ih (max a b) with h | h
    · rcases le_total a b with hab | hab
      · right
        rw [List.foldl_cons, h, max_eq_right hab]
        exact List.mem_cons_self b t
      · left; rw [List.foldl_cons, h, max_eq_left hab]
    · right; exact List.mem_cons_of_mem b h

/-- `listMax` of a nonempty list is its greatest member. -/
lemma listMax_spec (l : List ℝ) (h : l ≠ []) :
    listMax l ∈ l ∧ ∀ t ∈ l, t ≤ listMax l := by
  cases l with
  | nil => exact absurd rfl h
  | cons a t =>
    constructor
    · rcases foldl_max_mem t a with h' | h'
      · rw [show listMax (a :: t) = t.foldl max a from rfl, h']
        exact List.mem_cons_self a t
      · exact List.mem_cons_of_mem a h'
    · intro s hs
      rcases List.mem_cons.mp hs with rfl | hs'
      · exact foldl_max_init_le t s
      · exact foldl_max_mem_le t a s hs'

/-! ### Boundary behaviour of the embedded `np.interp` -/

/-- The `right=` value of `np.interp` is irrelevant at query points not
strictly beyond the last grid point (inner scan form). -/
lemma interpGo_rval_irrel (x r r' : ℝ) (xs : List ℝ) :
    ∀ (ys : List ℝ) (xl yl : ℝ), xs.length = ys.length →
      x ≤ xs.getLastD xl →
      interpGo x r xl yl xs ys = interpGo x r' xl yl xs ys := by
  induction xs with
  | nil =>
    intro ys xl yl hlen hle
    have hys : ys = [] := by cases ys <;> simp_all
    subst hys
    simp only [List.getLastD_nil] at hle
    simp [interpGo, not_lt.mpr hle]
  | cons xr xs ih =>
    intro ys xl yl hlen hle
    cases ys with
    | nil => simp at hlen
    | cons yr ys' =>
      simp only [interpGo]
      by_cases hx : x ≤ xr
      · simp [hx]
      · simp only [if_neg hx]
        exact ih ys' xr yr (by simpa using hlen)
          (by rwa [List.getLastD_cons] at hle)

/-- The `right=` value of `np.interp` is irrelevant at query points not
strictly beyond the last grid point. -/
lemma npInterp_rval_irrel (xp fp : List ℝ) (r r' x : ℝ)
    (hlen : xp.length = fp.length) (hx : x ≤ xp.getLastD 0) :
    npInterp xp fp r x = npInterp xp fp r' x := by
  cases xp with
  | nil => cases fp <;> simp [npInterp]
  | cons xl xs =>
    cases fp with
    | nil => simp at hlen
    | cons yl ys =>
      simp only [npInterp]
      by_cases hlt : x < xl
      · simp [hlt]
      · simp only [if_neg hlt]
        exact interpGo_rval_irrel x r r' xs ys xl yl (by simpa using hlen)
          (by rwa [List.getLastD_cons] at hx)

/-- Strictly beyond every grid point, `np.interp` returns its `right=`
value (inner scan form). -/
lemma interpGo_right (x r : ℝ) (xs : List ℝ) :
    ∀ (ys : List ℝ) (xl yl : ℝ), xs.length = ys.length →
      xl < x → (∀ t ∈ xs, t < x) →
      interpGo x r xl yl xs ys = r := by
  induction xs with
  | nil =>
    intro ys xl yl hlen hxl _
    have hys : ys = [] := by cases ys <;> simp_all
    subst hys
    simp [interpGo, hxl]
  | cons xr xs ih =>
    intro ys xl yl hlen hxl hall
    cases ys with
    | nil => simp at hlen
    | cons yr ys' =>
      have hxr : xr < x := hall xr (by simp)
      simp only [interpGo, if_neg (not_le.mpr hxr)]
      exact ih ys' xr yr (by simpa using hlen) hxr
        (fun t ht => hall t (by simp [ht]))

/-- Strictly beyond every grid point, `np.interp` returns its `right=`
value. -/
lemma npInterp_right (xp fp : List ℝ) (r x : ℝ) (hne : xp ≠ [])
    (hlen : xp.length = fp.length) (hall : ∀ t ∈ xp, t < x) :
    npInterp xp fp r x = r := by
  cases xp with
  | nil => exact absurd rfl hne
  | cons xl xs =>
    cases fp with
    | nil => simp at hlen
    | cons yl ys =>
      have hxl : xl < x := hall xl (by simp)
      simp only [npInterp, if_neg (not_lt.mpr (le_of_lt hxl))]
      exact interpGo_right x r xs ys xl yl (by simpa using hlen) hxl
        (fun t ht => hall t (by simp [ht]))

/-- `subsequent_points` on a list ending in `[Q, P]`: the three
synthetic points `P + k·(P - Q)` for `k = 1, 2, 3`. -/
lemma subsequent_points_concat (t : List (ℝ × ℝ)) (Q P : ℝ × ℝ) :
    subsequent_points (t ++ [Q, P]) =
      [(P.1 + 1 * (P.1 - Q.1), P.2 + 1 * (P.2 - Q.2)),
       (P.1 + 2 * (P.1 - Q.1), P.2 + 2 * (P.2 - Q.2)),
       (P.1 + 3 * (P.1 - Q.1), P.2 + 3 * (P.2 - Q.2))] := by
  unfold subsequent_points
  rw [drop_length_sub_two]
  simp [List.getLastD]

/-! ### Concrete fixtures used by the witness theorems -/

/-- A concrete stand-in for the scipy fitting routine. -/
noncomputable def fit0 : List ℝ → List ℝ → ℝ → ℝ := fun _ _ _ => 0

/-- Concrete external collaborators: every reaction string resolves to
`"D+T"` with reactants `("D", "T")`, every species has mass 3 amu, and
the data store holds a two-point table. -/
noncomputable def ext0 : Externals :=
  { name_resolver := fun _ => some "D+T"
    reactants := fun _ => some ("D", "T")
    ion_mass := fun _ => some 3
    cross_section_data := fun _ => some ([1000, 2000], [1, 2])
    fitSpline := fit0 }

/-- Junk engine used as the `Except.error` default of `exceptEngine`. -/
noncomputable def engineDefault : ENDFCrossSection :=
  { canonical_reaction_name := "", bt_to_com := 0, x := [], interp := fun _ => 0 }

/-- Extract the engine from a successful construction. -/
noncomputable def exceptEngine (e : Except String ENDFCrossSection) :
    ENDFCrossSection :=
  match e with
  | .ok v => v
  | .error _ => engineDefault

/-- The engine built from the name `"DT"` over `ext0` in
`LogLogExtrapolation` mode. -/
noncomputable def E0 : ENDFCrossSection :=
  exceptEngine (ENDFCrossSection.init ext0 (.name "DT") "LogLogExtrapolation")

/-- The engine built from the name `"DT"` over `ext0` in
`LogLogReinterpolation` mode. -/
noncomputable def E0r : ENDFCrossSection :=
  exceptEngine (ENDFCrossSection.init ext0 (.name "DT") "LogLogReinterpolation")

/-- A concrete two-point reinterpolation object. -/
noncomputable def llr0 : LogLogReinterpolation :=
  LogLogReinterpolation.init fit0 [1, 2] [1, 1] true (some 2)

/-- A concrete extrapolation object. -/
noncomputable def lle0 : LogLogExtrapolation :=
  LogLogExtrapolation.init fit0 [1, 2] [1, 1] false

/-! ### The claims -/

/-- Claim C1.  The claim states that constructing an engine from an
existing engine instance succeeds, copying its resolved key and frame
factor.  In the code this path reads the attribute `r.name`, which
`ENDFCrossSection.__init__` never assigns (it assigns
`canonical_reaction_name` instead), so for *every* engine instance and
every mode the clone construction fails with an `AttributeError` and
no engine is produced. -/
theorem c1_engine_clone_fails (ext : Externals) (E : ENDFCrossSection)
    (mode : String) :
    ENDFCrossSection.init ext (.engine E) mode = .error "AttributeError" := rfl

/-- Claim C2: for an engine constructed from a reaction-name string,
the frame factor is `m_tar / (m_beam + m_tar)` with both masses from
the data store, every energy is multiplied by it and divided by 1000,
every cross-section value is multiplied by 1000, and whichever
interpolant was selected is built from exactly those converted
arrays. -/
theorem c2_frame_and_unit_conversion (ext : Externals)
    (r name beam target : String) (m_beam m_tar : ℝ)
    (x_raw y_raw : List ℝ) (mode : String) (E : ENDFCrossSection)
    (h1 : ext.name_resolver r = some name)
    (h2 : ext.reactants name = some (beam, target))
    (h3 : ext.ion_mass beam = some m_beam)
    (h4 : ext.ion_mass target = some m_tar)
    (h5 : ext.cross_section_data name = some (x_raw, y_raw))
    (hE : ENDFCrossSection.init ext (.name r) mode = .ok E) :
    E.bt_to_com = m_tar / (m_beam + m_tar) ∧
    E.x = x_raw.map (fun v => v * (m_tar / (m_beam + m_tar)) / 1e3) ∧
    (E.interp = (LogLogExtrapolation.init ext.fitSpline
        (x_raw.map (fun v => v * (m_tar / (m_beam + m_tar)) / 1e3))
        (y_raw.map (fun v => v * 1e3)) true).call ∨
      E.interp = (LogLogReinterpolation.init ext.fitSpline
        (x_raw.map (fun v => v * (m_tar / (m_beam + m_tar)) / 1e3))
        (y_raw.map (fun v => v * 1e3)) true none).make_jitfunction) := by
  unfold ENDFCrossSection.init resolveReactionArg buildEngine at hE
  simp only [h1, h2, h3, h4, h5] at hE
  by_cases hm1 : mode = "LogLogExtrapolation"
  · subst hm1
    rw [if_pos rfl] at hE
    rw [Except.ok.injEq] at hE
    subst hE
    exact ⟨rfl, rfl, Or.inl rfl⟩
  · by_cases hm2 : mode = "LogLogReinterpolation"
    · subst hm2
      rw [if_neg (by decide), if_pos rfl] at hE
      rw [Except.ok.injEq] at hE
      subst hE
      exact ⟨rfl, rfl, Or.inr rfl⟩
    · rw [if_neg hm1, if_neg hm2] at hE
      simp at hE

/-- Witness for C2 at the concrete fixtures. -/
theorem c2_frame_and_unit_conversion_witness :
    ext0.name_resolver "DT" = some "D+T" ∧
    ext0.reactants "D+T" = some ("D", "T") ∧
    ext0.ion_mass "D" = some 3 ∧
    ext0.ion_mass "T" = some 3 ∧
    ext0.cross_section_data "D+T" = some ([1000, 2000], [1, 2]) ∧
    ENDFCrossSection.init ext0 (.name "DT") "LogLogExtrapolation" = .ok E0 ∧
    (E0.bt_to_com = 3 / (3 + 3) ∧
      E0.x = [1000, 2000].map (fun v => v * (3 / (3 + 3)) / 1e3) ∧
      (E0.interp = (LogLogExtrapolation.init ext0.fitSpline
          ([1000, 2000].map (fun v => v * (3 / (3 + 3)) / 1e3))
          ([1, 2].map (fun v => v * 1e3)) true).call ∨
        E0.interp = (LogLogReinterpolation.init ext0.fitSpline
          ([1000, 2000].map (fun v => v * (3 / (3 + 3)) / 1e3))
          ([1, 2].map (fun v => v * 1e3)) true none).make_jitfunction)) :=
  ⟨rfl, rfl, rfl, rfl, rfl, rfl,
    c2_frame_and_unit_conversion ext0 "DT" "D+T" "D" "T" 3 3 [1000, 2000]
      [1, 2] "LogLogExtrapolation" E0 rfl rfl rfl rfl rfl rfl⟩

set_option maxRecDepth 4000 in
/-- Claim C3: for every successfully constructed engine,
`prescribed_range()` is exactly `[min, max]` of the converted
tabulated energy array (the raw energies after frame and unit
conversion, not any extrapolated range), and the result does not
depend on the chosen interpolation mode. -/
theorem c3_prescribed_range_of_converted_table (ext : Externals)
    (r name beam target : String) (m_beam m_tar : ℝ)
    (x_raw y_raw : List ℝ) (E1 E2 : ENDFCrossSection)
    (h1 : ext.name_resolver r = some name)
    (h2 : ext.reactants name = some (beam, target))
    (h3 : ext.ion_mass beam = some m_beam)
    (h4 : ext.ion_mass target = some m_tar)
    (h5 : ext.cross_section_data name = some (x_raw, y_raw))
    (hraw : x_raw ≠ [])
    (hE1 : ENDFCrossSection.init ext (.name r) "LogLogExtrapolation" = .ok E1)
    (hE2 : ENDFCrossSection.init ext (.name r) "LogLogReinterpolation" = .ok E2) :
    E1.x = x_raw.map (fun v => v * E1.bt_to_com / 1e3) ∧
    E1.prescribed_range = [listMin E1.x, listMax E1.x] ∧
    (listMin E1.x ∈ E1.x ∧ ∀ t ∈ E1.x, listMin E1.x ≤ t) ∧
    (listMax E1.x ∈ E1.x ∧ ∀ t ∈ E1.x, t ≤ listMax E1.x) ∧
    E2.x = E1.x ∧
    E2.prescribed_range = E1.prescribed_range := by
  unfold ENDFCrossSection.init resolveReactionArg buildEngine at hE1 hE2
  simp only [h1, h2, h3, h4, h5] at hE1 hE2
  rw [if_pos trivial] at hE1
  rw [if_neg (by decide :
      ¬ ("LogLogReinterpolation" : String) = "LogLogExtrapolation"),
    if_pos trivial] at hE2
  rw [Except.ok.injEq] at hE1 hE2
  have hx1 : E1.x = x_raw.map (fun v => v * (m_tar / (m_beam + m_tar)) / 1e3) := by
    rw [← hE1]
  have hb1 : E1.bt_to_com = m_tar / (m_beam + m_tar) := by
    rw [← hE1]
  have hx2 : E2.x = x_raw.map (fun v => v * (m_tar / (m_beam + m_tar)) / 1e3) := by
    rw [← hE2]
  have hne : E1.x ≠ [] := by
    rw [hx1]
    simpa using hraw
  refine ⟨?_, rfl, listMin_spec E1.x hne, listMax_spec E1.x hne, ?_, ?_⟩
  · rw [hx1, hb1]
  · rw [hx1, hx2]
  · simp only [ENDFCrossSection.prescribed_range, hx1, hx2]

/-- Witness for C3 at the concrete fixtures. -/
theorem c3_prescribed_range_of_converted_table_witness :
    ext0.name_resolver "DT" = some "D+T" ∧
    ext0.reactants "D+T" = some ("D", "T") ∧
    ext0.ion_mass "D" = some 3 ∧
    ext0.ion_mass "T" = some 3 ∧
    ext0.cross_section_data "D+T" = some ([1000, 2000], [1, 2]) ∧
    ([1000, 2000] : List ℝ) ≠ [] ∧
    ENDFCrossSection.init ext0 (.name "DT") "LogLogExtrapolation" = .ok E0 ∧
    ENDFCrossSection.init ext0 (.name "DT") "LogLogReinterpolation" = .ok E0r ∧
    (E0.x = [1000, 2000].map (fun v => v * E0.bt_to_com / 1e3) ∧
      E0.prescribed_range = [listMin E0.x, listMax E0.x] ∧
      (listMin E0.x ∈ E0.x ∧ ∀ t ∈ E0.x, listMin E0.x ≤ t) ∧
      (listMax E0.x ∈ E0.x ∧ ∀ t ∈ E0.x, t ≤ listMax E0.x) ∧
      E0r.x = E0.x ∧
      E0r.prescribed_range = E0.prescribed_range) :=
  ⟨rfl, rfl, rfl, rfl, rfl, by simp, rfl, rfl,
    c3_prescribed_range_of_converted_table ext0 "DT" "D+T" "D" "T" 3 3
      [1000, 2000] [1, 2] E0 E0r rfl rfl rfl rfl rfl (by simp) rfl rfl⟩

/-- Claim C4 as amended: the logarithms of *energies* are guarded by
the epsilon `1e-50` — at construction (`logx = log(x + SMALL)`) and at
evaluation (`log(newx + SMALL)`) — so their arguments are positive for
every non-negative input; but the logarithm of the tabulated
*cross-section* values is taken without the epsilon
(`logy = log(y)`, endf.py line 27), so its argument is positive only
for strictly positive tabulated values. -/
theorem c4_epsilon_guard_amended (xi yi e : ℝ) (t : LogLogExtrapolation)
    (hx : 0 ≤ xi) (hy : 0 < yi) (he : 0 ≤ e) :
    (lle_logx_transform xi = Real.log (xi + LLE_SMALL) ∧ 0 < xi + LLE_SMALL) ∧
    (lle_logy_transform yi = Real.log yi ∧ 0 < yi) ∧
    (t.call e = Real.exp (t.interpolator (Real.log (e + LLE_SMALL))) ∧
      0 < e + LLE_SMALL) := by
  have hs : (0 : ℝ) < LLE_SMALL := by norm_num [LLE_SMALL]
  exact ⟨⟨rfl, by linarith⟩, ⟨rfl, hy⟩, ⟨rfl, by linarith⟩⟩

/-- Witness for the amended C4 at concrete inputs. -/
theorem c4_epsilon_guard_amended_witness :
    (0 : ℝ) ≤ 0 ∧ (0 : ℝ) < 1 ∧
    ((lle_logx_transform 0 = Real.log (0 + LLE_SMALL) ∧ 0 < (0:ℝ) + LLE_SMALL) ∧
      (lle_logy_transform 1 = Real.log 1 ∧ (0:ℝ) < 1) ∧
      (lle0.call 0 = Real.exp (lle0.interpolator (Real.log (0 + LLE_SMALL))) ∧
        0 < (0:ℝ) + LLE_SMALL)) :=
  ⟨le_refl 0, one_pos,
    c4_epsilon_guard_amended 0 1 0 lle0 (le_refl 0) one_pos (le_refl 0)⟩

/-- Counterexample to C4 as stated: the claim says *every* logarithm
taken by `LogLogExtrapolation` is guarded by adding `1e-50`, but the
cross-section transform at the tabulated value `0` is `log 0`, not
`log (0 + 1e-50)`. -/
theorem c4_epsilon_guard_counterexample :
    lle_logy_transform 0 ≠ Real.log (0 + LLE_SMALL) := by
  unfold lle_logy_transform
  rw [Real.log_zero, zero_add]
  intro h
  have h2 : Real.log LLE_SMALL < 0 :=
    Real.log_neg (by norm_num [LLE_SMALL]) (by norm_num [LLE_SMALL])
  rw [← h] at h2
  exact lt_irrefl 0 h2

/-- Claim C5: with the linear-extension option, `LogLogExtrapolation`
appends exactly three synthetic points `P + 1·D`, `P + 2·D`, `P + 3·D`
after the last transformed point `P`, where `D` is the difference of
the last two transformed points, and the spline is fitted through the
original transformed points followed by these three, in order. -/
theorem c5_linear_extension_points (fit : List ℝ → List ℝ → ℝ → ℝ)
    (x y : List ℝ) (hx : 2 ≤ x.length) (hlen : y.length = x.length) :
    ∃ P Q : ℝ × ℝ,
      P = ((x.map lle_logx_transform).zip (y.map lle_logy_transform)).getLastD
        (0, 0) ∧
      Q = ((x.map lle_logx_transform).zip
        (y.map lle_logy_transform)).dropLast.getLastD (0, 0) ∧
      (LogLogExtrapolation.init fit x y true).data =
        (x.map lle_logx_transform).zip (y.map lle_logy_transform) ++
          [(P.1 + 1 * (P.1 - Q.1), P.2 + 1 * (P.2 - Q.2)),
           (P.1 + 2 * (P.1 - Q.1), P.2 + 2 * (P.2 - Q.2)),
           (P.1 + 3 * (P.1 - Q.1), P.2 + 3 * (P.2 - Q.2))] ∧
      (LogLogExtrapolation.init fit x y true).interpolator =
        fit ((LogLogExtrapolation.init fit x y true).data.map Prod.fst)
          ((LogLogExtrapolation.init fit x y true).data.map Prod.snd) := by
  have hdlen :
      2 ≤ ((x.map lle_logx_transform).zip (y.map lle_logy_transform)).length := by
    rw [List.length_zip, List.length_map, List.length_map, hlen, min_self]
    exact hx
  obtain ⟨t, Q0, P0, hdec⟩ := exists_concat_two _ hdlen
  refine ⟨P0, Q0, ?_, ?_, ?_, rfl⟩
  · rw [hdec, getLastD_concat_two]
  · rw [hdec, dropLast_concat_two, List.getLastD_concat]
  · rw [show (LogLogExtrapolation.init fit x y true).data
        = (x.map lle_logx_transform).zip (y.map lle_logy_transform) ++
          subsequent_points
            ((x.map lle_logx_transform).zip (y.map lle_logy_transform))
        from rfl]
    rw [hdec, subsequent_points_concat]

/-- Witness for C5 at a concrete two-point table. -/
theorem c5_linear_extension_points_witness :
    2 ≤ ([1, 2] : List ℝ).length ∧
    ([1, 1] : List ℝ).length = ([1, 2] : List ℝ).length ∧
    (∃ P Q : ℝ × ℝ,
      P = ((([1, 2] : List ℝ).map lle_logx_transform).zip
        ((([1, 1] : List ℝ)).map lle_logy_transform)).getLastD (0, 0) ∧
      Q = ((([1, 2] : List ℝ).map lle_logx_transform).zip
        ((([1, 1] : List ℝ)).map lle_logy_transform)).dropLast.getLastD (0, 0) ∧
      (LogLogExtrapolation.init fit0 [1, 2] [1, 1] true).data =
        (([1, 2] : List ℝ).map lle_logx_transform).zip
          ((([1, 1] : List ℝ)).map lle_logy_transform) ++
          [(P.1 + 1 * (P.1 - Q.1), P.2 + 1 * (P.2 - Q.2)),
           (P.1 + 2 * (P.1 - Q.1), P.2 + 2 * (P.2 - Q.2)),
           (P.1 + 3 * (P.1 - Q.1), P.2 + 3 * (P.2 - Q.2))] ∧
      (LogLogExtrapolation.init fit0 [1, 2] [1, 1] true).interpolator =
        fit0 ((LogLogExtrapolation.init fit0 [1, 2] [1, 1] true).data.map
            Prod.fst)
          ((LogLogExtrapolation.init fit0 [1, 2] [1, 1] true).data.map
            Prod.snd)) :=
  ⟨by decide, by decide,
    c5_linear_extension_points fit0 [1, 2] [1, 1] (by decide) (by decide)⟩

/-! ### Grid facts for `LogLogReinterpolation` and claims C6–C10 -/

lemma llr_remeshed_logx (fit : List ℝ → List ℝ → ℝ → ℝ) (x y : List ℝ)
    (le : Bool) (num? : Option ℕ) :
    (LogLogReinterpolation.init fit x y le num?).remeshed_logx =
      linspace (Real.log LLR_LOWBOUND) (Real.log LLR_HIGHBOUND)
        (num?.getD LLR_NUM_REMESH) := rfl

lemma llr_remeshed_logy (fit : List ℝ → List ℝ → ℝ → ℝ) (x y : List ℝ)
    (le : Bool) (num? : Option ℕ) :
    (LogLogReinterpolation.init fit x y le num?).remeshed_logy =
      ((LogLogReinterpolation.init fit x y le num?).remeshed_logx).map
        (LogLogExtrapolation.init fit x y le).interpolator := rfl

lemma llr_length_eq (fit : List ℝ → List ℝ → ℝ → ℝ) (x y : List ℝ)
    (le : Bool) (num? : Option ℕ) :
    (LogLogReinterpolation.init fit x y le num?).remeshed_logx.length =
      (LogLogReinterpolation.init fit x y le num?).remeshed_logy.length := by
  rw [llr_remeshed_logy, List.length_map]

lemma log_lowbound_le_log_highbound :
    Real.log LLR_LOWBOUND ≤ Real.log LLR_HIGHBOUND :=
  Real.log_le_log (by norm_num [LLR_LOWBOUND])
    (by norm_num [LLR_LOWBOUND, LLR_HIGHBOUND])

/-- Every grid point lies strictly below any `z` above
`log LLR_HIGHBOUND`. -/
lemma llr_grid_all_lt (fit : List ℝ → List ℝ → ℝ → ℝ) (x y : List ℝ)
    (le : Bool) (num? : Option ℕ) (z : ℝ)
    (hz : Real.log LLR_HIGHBOUND < z) :
    ∀ t ∈ (LogLogReinterpolation.init fit x y le num?).remeshed_logx, t < z := by
  intro t ht
  rw [llr_remeshed_logx] at ht
  exact lt_of_le_of_lt
    (linspace_mem_le _ _ _ log_lowbound_le_log_highbound t ht) hz

lemma llr_grid_ne_nil (fit : List ℝ → List ℝ → ℝ → ℝ) (x y : List ℝ)
    (le : Bool) (num? : Option ℕ) (hn : 1 ≤ num?.getD LLR_NUM_REMESH) :
    (LogLogReinterpolation.init fit x y le num?).remeshed_logx ≠ [] := by
  rw [llr_remeshed_logx]
  exact linspace_ne_nil _ _ _ hn

/-- Beyond the high bound the call operation returns the floor. -/
lemma llr_call_beyond_highbound (fit : List ℝ → List ℝ → ℝ → ℝ)
    (x y : List ℝ) (le : Bool) (num? : Option ℕ) (e : ℝ)
    (hn : 2 ≤ num?.getD LLR_NUM_REMESH) (he : LLR_HIGHBOUND < e) :
    (LogLogReinterpolation.init fit x y le num?).call e =
      Real.exp (Real.logb 10 LLR_SMALL) := by
  have hH : (0 : ℝ) < LLR_HIGHBOUND := by norm_num [LLR_HIGHBOUND]
  have hlog : Real.log LLR_HIGHBOUND < Real.log e := Real.log_lt_log hH he
  simp only [LogLogReinterpolation.call]
  rw [npInterp_right _ _ _ _ (llr_grid_ne_nil fit x y le num? (by omega))
    (llr_length_eq fit x y le num?) (llr_grid_all_lt fit x y le num? _ hlog)]

/-- Claim C6: strictly right of the 40000 keV bound the
reinterpolation's call returns the one fixed floor value
`exp(log10(1e-50))`; at query points whose logarithm lies in the grid
it returns `exp` of the piecewise-linear interpolation of the stored
log table at `log e` (the `right=` floor plays no part there). -/
theorem c6_reinterpolation_call_clamp (fit : List ℝ → List ℝ → ℝ → ℝ)
    (x y : List ℝ) (le : Bool) (num? : Option ℕ) (e : ℝ)
    (hn : 2 ≤ num?.getD LLR_NUM_REMESH) :
    (LLR_HIGHBOUND < e →
      (LogLogReinterpolation.init fit x y le num?).call e =
        Real.exp (Real.logb 10 LLR_SMALL)) ∧
    (Real.log LLR_LOWBOUND ≤ Real.log e →
      Real.log e ≤ Real.log LLR_HIGHBOUND →
      (LogLogReinterpolation.init fit x y le num?).call e =
        Real.exp (npInterpDefault
          (LogLogReinterpolation.init fit x y le num?).remeshed_logx
          (LogLogReinterpolation.init fit x y le num?).remeshed_logy
          (Real.log e))) := by
  constructor
  · exact llr_call_beyond_highbound fit x y le num? e hn
  · intro _ hhi
    simp only [LogLogReinterpolation.call, npInterpDefault]
    refine congrArg Real.exp ?_
    refine npInterp_rval_irrel _ _ _ _ _ (llr_length_eq fit x y le num?) ?_
    rw [llr_remeshed_logx, linspace_getLastD _ _ _ hn]
    exact hhi

/-- Witness for C6 at a concrete two-point grid. -/
theorem c6_reinterpolation_call_clamp_witness :
    2 ≤ (some 2 : Option ℕ).getD LLR_NUM_REMESH ∧
    ((LLR_HIGHBOUND < (1 : ℝ) →
      llr0.call 1 = Real.exp (Real.logb 10 LLR_SMALL)) ∧
    (Real.log LLR_LOWBOUND ≤ Real.log (1 : ℝ) →
      Real.log (1 : ℝ) ≤ Real.log LLR_HIGHBOUND →
      llr0.call 1 = Real.exp (npInterpDefault llr0.remeshed_logx
        llr0.remeshed_logy (Real.log (1 : ℝ))))) :=
  ⟨by decide,
    c6_reinterpolation_call_clamp fit0 [1, 2] [1, 1] true (some 2) 1 (by decide)⟩

/-- Claim C7: the reinterpolation grid is `np.linspace` between
`log 0.01` and `log 40000` with 6000 points by default (the supplied
count otherwise), the log-cross-section table is the wrapped spline
sampled at every grid point, and only the grid arrays are retained:
two constructions whose splines agree on the grid are
indistinguishable, so the spline itself is not reachable from the
constructed object. -/
theorem c7_reinterpolation_construction (fit fit' : List ℝ → List ℝ → ℝ → ℝ)
    (x y : List ℝ) (le : Bool) (num? : Option ℕ) :
    (LogLogReinterpolation.init fit x y le num?).NUM_REMESH =
      num?.getD 6000 ∧
    (LogLogReinterpolation.init fit x y le none).NUM_REMESH = 6000 ∧
    (LogLogReinterpolation.init fit x y le num?).remeshed_logx =
      linspace (Real.log LLR_LOWBOUND) (Real.log LLR_HIGHBOUND)
        (num?.getD 6000) ∧
    (LogLogReinterpolation.init fit x y le num?).remeshed_logx.length =
      num?.getD 6000 ∧
    (∀ i, i + 1 < num?.getD 6000 →
      (LogLogReinterpolation.init fit x y le num?).remeshed_logx.getD (i + 1) 0 -
        (LogLogReinterpolation.init fit x y le num?).remeshed_logx.getD i 0 =
        (Real.log LLR_HIGHBOUND - Real.log LLR_LOWBOUND) /
          ((num?.getD 6000 : ℝ) - 1)) ∧
    (LogLogReinterpolation.init fit x y le num?).remeshed_logy =
      ((LogLogReinterpolation.init fit x y le num?).remeshed_logx).map
        (LogLogExtrapolation.init fit x y le).interpolator ∧
    ((∀ t ∈ (LogLogReinterpolation.init fit x y le num?).remeshed_logx,
        (LogLogExtrapolation.init fit x y le).interpolator t =
          (LogLogExtrapolation.init fit' x y le).interpolator t) →
      LogLogReinterpolation.init fit x y le num? =
        LogLogReinterpolation.init fit' x y le num?) := by
  refine ⟨rfl, rfl, rfl, linspace_length _ _ _, ?_, rfl, ?_⟩
  · intro i hi
    rw [llr_remeshed_logx]
    exact linspace_spacing _ _ _ i hi
  intro h
  exact congrArg
    (LogLogReinterpolation.mk (num?.getD LLR_NUM_REMESH)
      (remeshed_log_x (num?.getD LLR_NUM_REMESH)))
    (List.map_congr_left h)

/-- Claim C9: `ion_mass` returns the `mass` field of the record that
the backing mapping holds for a present symbol, and fails for an
absent symbol. -/
theorem c9_ion_mass_lookup (ion_data : List (String × IonRecord)) (s : String) :
    (∀ rec : IonRecord, ion_data.lookup s = some rec →
      ion_mass ion_data s = some rec.mass) ∧
    (ion_data.lookup s = none → ion_mass ion_data s = none) := by
  constructor
  · intro rec h
    simp [ion_mass, h]
  · intro h
    simp [ion_mass, h]

/-- Claim C10: the detached evaluator agrees with the call operation
up to the `1e-50` shift it adds to its argument while the query stays
left of the grid's right edge; strictly beyond 40000 keV the call
returns the fixed floor `exp(log10(1e-50))` but the detached evaluator
returns the (exponentiated) last table value; and at energy zero the
detached evaluator's logarithm receives the positive argument
`0 + 1e-50` while the call takes `log 0`. -/
theorem c10_jit_vs_call (fit : List ℝ → List ℝ → ℝ → ℝ) (x y : List ℝ)
    (le : Bool) (num? : Option ℕ) (e : ℝ)
    (hn : 2 ≤ num?.getD LLR_NUM_REMESH) :
    (Real.log (e + LLR_SMALL) ≤ Real.log LLR_HIGHBOUND →
      (LogLogReinterpolation.init fit x y le num?).make_jitfunction e =
        (LogLogReinterpolation.init fit x y le num?).call (e + LLR_SMALL)) ∧
    (LLR_HIGHBOUND < e →
      (LogLogReinterpolation.init fit x y le num?).call e =
        Real.exp (Real.logb 10 LLR_SMALL) ∧
      (LogLogReinterpolation.init fit x y le num?).make_jitfunction e =
        Real.exp
          ((LogLogReinterpolation.init fit x y le num?).remeshed_logy.getLastD
            0)) ∧
    ((LogLogReinterpolation.init fit x y le num?).make_jitfunction 0 =
        Real.exp (npInterpDefault
          (LogLogReinterpolation.init fit x y le num?).remeshed_logx
          (LogLogReinterpolation.init fit x y le num?).remeshed_logy
          (Real.log (0 + LLR_SMALL))) ∧
      0 < (0 : ℝ) + LLR_SMALL ∧
      (LogLogReinterpolation.init fit x y le num?).call 0 =
        Real.exp (npInterp
          (LogLogReinterpolation.init fit x y le num?).remeshed_logx
          (LogLogReinterpolation.init fit x y le num?).remeshed_logy
          (Real.logb 10 LLR_SMALL) (Real.log 0))) := by
  have hH : (0 : ℝ) < LLR_HIGHBOUND := by norm_num [LLR_HIGHBOUND]
  have hS : (0 : ℝ) < LLR_SMALL := by norm_num [LLR_SMALL]
  refine ⟨?_, ?_, rfl, by linarith, rfl⟩
  · intro hhi
    simp only [LogLogReinterpolation.make_jitfunction,
      LogLogReinterpolation.call, npInterpDefault]
    refine congrArg Real.exp ?_
    refine npInterp_rval_irrel _ _ _ _ _ (llr_length_eq fit x y le num?) ?_
    rw [llr_remeshed_logx, linspace_getLastD _ _ _ hn]
    exact hhi
  · intro he
    constructor
    · exact llr_call_beyond_highbound fit x y le num? e hn he
    · have hlog : Real.log LLR_HIGHBOUND < Real.log (e + LLR_SMALL) :=
        Real.log_lt_log hH (by linarith)
      simp only [LogLogReinterpolation.make_jitfunction, npInterpDefault]
      rw [npInterp_right _ _ _ _ (llr_grid_ne_nil fit x y le num? (by omega))
        (llr_length_eq fit x y le num?)
        (llr_grid_all_lt fit x y le num? _ hlog)]

/-- Witness for C10 at a concrete two-point grid and energy 1 keV. -/
theorem c10_jit_vs_call_witness :
    2 ≤ (some 2 : Option ℕ).getD LLR_NUM_REMESH ∧
    ((Real.log ((1 : ℝ) + LLR_SMALL) ≤ Real.log LLR_HIGHBOUND →
      llr0.make_jitfunction 1 = llr0.call (1 + LLR_SMALL)) ∧
    (LLR_HIGHBOUND < (1 : ℝ) →
      llr0.call 1 = Real.exp (Real.logb 10 LLR_SMALL) ∧
      llr0.make_jitfunction 1 = Real.exp (llr0.remeshed_logy.getLastD 0)) ∧
    (llr0.make_jitfunction 0 =
        Real.exp (npInterpDefault llr0.remeshed_logx llr0.remeshed_logy
          (Real.log (0 + LLR_SMALL))) ∧
      0 < (0 : ℝ) + LLR_SMALL ∧
      llr0.call 0 =
        Real.exp (npInterp llr0.remeshed_logx llr0.remeshed_logy
          (Real.logb 10 LLR_SMALL) (Real.log 0)))) :=
  ⟨by decide, c10_jit_vs_call fit0 [1, 2] [1, 1] true (some 2) 1 (by decide)⟩

/-! ### Claim C8: interpolation-mode dispatch -/

lemma isInfix_append_left {α : Type} {t s : List α} (u : List α)
    (h : List.IsInfix t s) : List.IsInfix t (u ++ s) := by
  obtain ⟨a, b, hab⟩ := h
  exact ⟨u ++ a, b, by rw [← hab]; simp⟩

lemma isInfix_append_right {α : Type} {t s : List α} (v : List α)
    (h : List.IsInfix t s) : List.IsInfix t (s ++ v) := by
  obtain ⟨a, b, hab⟩ := h
  exact ⟨a, b ++ v, by rw [← hab]; simp⟩

/-- The error message as a right-nested concatenation of its pieces. -/
lemma interpModeError_data (mode : String) :
    (interpModeError mode).data =
      "Unknown interpolation type ".data ++ (mode.data ++ (".".data ++
        ("Allowed values are LogLogExtrapolation and".data ++
          "LogLogReinterpolation.".data))) := by
  simp [interpModeError, String.data_append, List.append_assoc]

/-- The mode error message names the first valid option. -/
lemma interpModeError_names_extrapolation (mode : String) :
    List.IsInfix "LogLogExtrapolation".data (interpModeError mode).data := by
  rw [interpModeError_data]
  refine isInfix_append_left _ (isInfix_append_left _ (isInfix_append_left _
    (isInfix_append_right _ ?_)))
  decide

/-- The mode error message names the second valid option. -/
lemma interpModeError_names_reinterpolation (mode : String) :
    List.IsInfix "LogLogReinterpolation".data (interpModeError mode).data := by
  rw [interpModeError_data]
  refine isInfix_append_left _ (isInfix_append_left _ (isInfix_append_left _
    (isInfix_append_left _ ?_)))
  decide

/-- Claim C8: mode `"LogLogExtrapolation"` (also the default) selects
the spline-based extrapolating interpolant, `"LogLogReinterpolation"`
selects the remeshed detached evaluator, and any other mode value
fails with the mode error, whose message names both valid options; on
that failure no engine (hence no interpolant) is produced. -/
theorem c8_interpolation_mode_dispatch (ext : Externals)
    (r name beam target : String) (m_beam m_tar : ℝ)
    (x_raw y_raw : List ℝ)
    (h1 : ext.name_resolver r = some name)
    (h2 : ext.reactants name = some (beam, target))
    (h3 : ext.ion_mass beam = some m_beam)
    (h4 : ext.ion_mass target = some m_tar)
    (h5 : ext.cross_section_data name = some (x_raw, y_raw)) :
    (∃ E1, ENDFCrossSection.init ext (.name r) "LogLogExtrapolation" = .ok E1 ∧
      E1.interp = (LogLogExtrapolation.init ext.fitSpline
        (x_raw.map (fun v => v * (m_tar / (m_beam + m_tar)) / 1e3))
        (y_raw.map (fun v => v * 1e3)) true).call) ∧
    (∃ E2, ENDFCrossSection.init ext (.name r) "LogLogReinterpolation" = .ok E2 ∧
      E2.interp = (LogLogReinterpolation.init ext.fitSpline
        (x_raw.map (fun v => v * (m_tar / (m_beam + m_tar)) / 1e3))
        (y_raw.map (fun v => v * 1e3)) true none).make_jitfunction) ∧
    (∀ mode, mode ≠ "LogLogExtrapolation" → mode ≠ "LogLogReinterpolation" →
      ENDFCrossSection.init ext (.name r) mode =
        .error (interpModeError mode) ∧
      List.IsInfix "LogLogExtrapolation".data (interpModeError mode).data ∧
      List.IsInfix "LogLogReinterpolation".data (interpModeError mode).data) ∧
    ENDFCrossSection.initDefault ext (.name r) =
      ENDFCrossSection.init ext (.name r) "LogLogExtrapolation" := by
  have hinit : ∀ mode, ENDFCrossSection.init ext (.name r) mode =
      buildEngine ext name (m_tar / (m_beam + m_tar)) mode := by
    intro mode
    unfold ENDFCrossSection.init resolveReactionArg
    simp only [h1, h2, h3, h4]
  refine ⟨?_, ?_, ?_, rfl⟩
  · rw [hinit]
    unfold buildEngine
    simp only [h5]
    exact ⟨_, rfl, rfl⟩
  · rw [hinit]
    unfold buildEngine
    simp only [h5]
    exact ⟨_, rfl, rfl⟩
  · intro mode hm1 hm2
    refine ⟨?_, interpModeError_names_extrapolation mode,
      interpModeError_names_reinterpolation mode⟩
    rw [hinit]
    unfold buildEngine
    simp only [h5]
    rw [if_neg hm1, if_neg hm2]

/-- Witness for C8 at the concrete fixtures. -/
theorem c8_interpolation_mode_dispatch_witness :
    ext0.name_resolver "DT" = some "D+T" ∧
    ext0.reactants "D+T" = some ("D", "T") ∧
    ext0.ion_mass "D" = some 3 ∧
    ext0.ion_mass "T" = some 3 ∧
    ext0.cross_section_data "D+T" = some ([1000, 2000], [1, 2]) ∧
    ((∃ E1, ENDFCrossSection.init ext0 (.name "DT") "LogLogExtrapolation" =
        .ok E1 ∧
      E1.interp = (LogLogExtrapolation.init ext0.fitSpline
        (([1000, 2000] : List ℝ).map (fun v => v * (3 / (3 + 3)) / 1e3))
        (([1, 2] : List ℝ).map (fun v => v * 1e3)) true).call) ∧
    (∃ E2, ENDFCrossSection.init ext0 (.name "DT") "LogLogReinterpolation" =
        .ok E2 ∧
      E2.interp = (LogLogReinterpolation.init ext0.fitSpline
        (([1000, 2000] : List ℝ).map (fun v => v * (3 / (3 + 3)) / 1e3))
        (([1, 2] : List ℝ).map (fun v => v * 1e3)) true
        none).make_jitfunction) ∧
    (∀ mode, mode ≠ "LogLogExtrapolation" → mode ≠ "LogLogReinterpolation" →
      ENDFCrossSection.init ext0 (.name "DT") mode =
        .error (interpModeError mode) ∧
      List.IsInfix "LogLogExtrapolation".data (interpModeError mode).data ∧
      List.IsInfix "LogLogReinterpolation".data (interpModeError mode).data) ∧
    ENDFCrossSection.initDefault ext0 (.name "DT") =
      ENDFCrossSection.init ext0 (.name "DT") "LogLogExtrapolation") :=
  ⟨rfl, rfl, rfl, rfl, rfl,
    c8_interpolation_mode_dispatch ext0 "DT" "D+T" "D" "T" 3 3 [1000, 2000]
      [1, 2] rfl rfl rfl rfl rfl⟩

end Fusionrate
